import Mathlib

/-
Verification of the QA cross-check engine
(plugins/python-web-scraper-plugin/scripts/qa_crosscheck.py).

The script is embedded shallowly: parsed JSON documents become an inductive
type J; Python dict indexing `d[k]` raises KeyError on a missing key and is
modelled in the Except monad, while `d.get(k)` is total on dicts; numbers are
exact rationals (ints and floats kept apart where the script's payloads keep
them apart); ISO-8601 timestamp strings are abstracted by the epoch-second
instant they denote (datetime comparison and subtraction become Rat comparison
and subtraction).  Each check function returns `Except PyErr CheckResult`,
where an `error` is an exception escaping the check, exactly as an unhandled
KeyError/TypeError would escape the Python function.
-/

namespace QACross

/-- Values produced by json.load: null, booleans, integers, floats (kept
separate, as Python keeps them), strings, arrays, and insertion-ordered
objects. -/
inductive J : Type where
  | null : J
  | bool (b : Bool) : J
  | int (n : Int) : J
  | flt (q : Rat) : J
  | str (s : String) : J
  | arr (xs : List J) : J
  | obj (kvs : List (String × J)) : J

/-- Exceptions a check body can raise: KeyError from `d[k]`, TypeError from
arithmetic or len() on a wrong shape (AttributeError from `.get`/`.items` on a
non-dict is collapsed into it), ValueError from timestamp parsing. -/
inductive PyErr : Type where
  | keyError (k : String) : PyErr
  | typeError : PyErr
  | valueError : PyErr
deriving DecidableEq, Repr

/-- Python `d[k]` on a parsed JSON value: KeyError when the key is missing,
TypeError when the receiver is not a dict (the documents never hold duplicate
keys, so first-match lookup is dict lookup). -/
def dget (j : J) (k : String) : Except PyErr J :=
  match j with
  | J.obj kvs =>
    match kvs.lookup k with
    | some v => Except.ok v
    | none => Except.error (PyErr.keyError k)
  | _ => Except.error PyErr.typeError

/-- Python `d.get(k)` with default None; None is modelled as `Option.none`.
On a non-dict receiver Python raises AttributeError. -/
def pyGet (j : J) (k : String) : Except PyErr (Option J) :=
  match j with
  | J.obj kvs => Except.ok (kvs.lookup k)
  | _ => Except.error PyErr.typeError

/-- Numeric value of a Python object for arithmetic and comparisons; bool
counts as 0/1 as in Python; non-numbers raise TypeError. -/
def toNum (j : J) : Except PyErr Rat :=
  match j with
  | J.int n => Except.ok (n : Rat)
  | J.flt q => Except.ok q
  | J.bool b => Except.ok (if b then 1 else 0)
  | _ => Except.error PyErr.typeError

/-- Python len(): arrays, strings and dicts have a length; numbers and null
raise TypeError. -/
def pyLen (j : J) : Except PyErr Nat :=
  match j with
  | J.arr xs => Except.ok xs.length
  | J.str s => Except.ok s.length
  | J.obj kvs => Except.ok kvs.length
  | _ => Except.error PyErr.typeError

/-- Python `for x in v` over a parsed JSON value, for the loops of the script;
the documents iterate only arrays, other shapes are collapsed into TypeError. -/
def asArr (j : J) : Except PyErr (List J) :=
  match j with
  | J.arr xs => Except.ok xs
  | _ => Except.error PyErr.typeError

/-- Entries of a parsed JSON dict, for `d.items()`; non-dicts raise. -/
def asObj (j : J) : Except PyErr (List (String × J)) :=
  match j with
  | J.obj kvs => Except.ok kvs
  | _ => Except.error PyErr.typeError

/-
Rational arithmetic.  The standard Rat operations are irreducible in this
toolchain, so concrete runs could not be evaluated inside proofs through
them; the script's arithmetic is therefore embedded through the following
mkRat-based operations, which the kernel can evaluate, and which are proved
pointwise equal to the standard operations (qsub_eq and friends below) so
that theorem statements can use the usual symbols.
-/

/-- Subtraction of rationals, kernel-computable. -/
def qsub (a b : Rat) : Rat := mkRat (a.num * b.den - b.num * a.den) (a.den * b.den)

/-- Multiplication of rationals, kernel-computable. -/
def qmul (a b : Rat) : Rat := mkRat (a.num * b.num) (a.den * b.den)

/-- Inverse of a rational (0 for 0), kernel-computable. -/
def qinv (b : Rat) : Rat :=
  if b.num < 0 then mkRat (-(b.den : Int)) b.num.natAbs
  else mkRat (b.den : Int) b.num.natAbs

/-- Division of rationals (x / 0 = 0, never reached by the script on its
guarded divisions), kernel-computable. -/
def qdiv (a b : Rat) : Rat := qmul a (qinv b)

/-- Absolute value of a rational, kernel-computable. -/
def qabs (a : Rat) : Rat := if a < 0 then mkRat (-a.num) a.den else a

/-- Python max(a, b) on numbers, kernel-computable. -/
def qmax (a b : Rat) : Rat := if a < b then b else a

/-- Round n / d (d ≠ 0) to the nearest integer, ties to even, as Python round
does. -/
def roundHalfEvenND (n : Int) (d : Nat) : Int :=
  if 2 * (n.emod d) < (d : Int) then n.ediv d
  else if (d : Int) < 2 * (n.emod d) then n.ediv d + 1
  else if n.ediv d % 2 = 0 then n.ediv d else n.ediv d + 1

/-- Python round(x, ndigits) on exact rationals (binary floating-point
representation error is abstracted away): round half to even at the given
decimal digit. -/
def pyRound (q : Rat) (ndigits : Nat) : Rat :=
  mkRat (roundHalfEvenND (q.num * (10 ^ ndigits : Nat)) q.den) (10 ^ ndigits)

/-- Configurable QA thresholds, with the script's defaults. -/
structure QAThresholds where
  item_count_variance : Rat := mkRat 2 100
  item_count_absolute : Int := 3
  timestamp_deviation_seconds : Int := 60
  field_completeness_variance : Rat := mkRat 5 100
  cross_reference_tolerance : Rat := 0
deriving DecidableEq, Repr

/-- The thresholds object with every field at its default. -/
def defaultThresholds : QAThresholds := {}

/-- Result of a single validation check; details is the insertion-ordered dict
payload the script builds. -/
structure CheckResult where
  check_name : String
  status : String
  details : List (String × J)

/-- Embeds check_item_count_consistency: reported count from
metadata.items_summary.total_items_found, actual count from len(items.items);
variance_pct is 0.0 when reported == 0 and |reported-actual|/reported
otherwise; FAIL only when both the percentage gate and the absolute gate are
exceeded.  The variance_abs payload keeps Python's int subtraction when the
reported count is an int. -/
def check_item_count_consistency (items_data metadata_data : J)
    (thresholds : QAThresholds) : Except PyErr CheckResult := do
  let summary ← dget metadata_data "items_summary"
  let reportedJ ← dget summary "total_items_found"
  let reported ← toNum reportedJ
  let itemsJ ← dget items_data "items"
  let actual_count ← pyLen itemsJ
  let variance_pct : Rat :=
    if reported = 0 then 0 else qdiv (qabs (qsub reported (actual_count : Rat))) reported
  let variance_abs : Rat := qabs (qsub reported (actual_count : Rat))
  let variance_absJ : J :=
    match reportedJ with
    | J.int n => J.int ((n - (actual_count : Int)).natAbs : Int)
    | J.bool b => J.int (((if b then 1 else 0) - (actual_count : Int)).natAbs : Int)
    | _ => J.flt variance_abs
  if variance_pct > thresholds.item_count_variance ∧
      variance_abs > (thresholds.item_count_absolute : Rat) then
    pure { check_name := "item_count_consistency", status := "FAIL",
           details := [("reported", reportedJ),
                       ("actual", J.int (actual_count : Int)),
                       ("variance_pct", J.flt (pyRound (qmul variance_pct 100) 2)),
                       ("variance_abs", variance_absJ),
                       ("tolerance_pct", J.flt (qmul thresholds.item_count_variance 100)),
                       ("tolerance_abs", J.int thresholds.item_count_absolute)] }
  else
    pure { check_name := "item_count_consistency", status := "PASS",
           details := [("reported", reportedJ),
                       ("actual", J.int (actual_count : Int)),
                       ("variance", J.flt (pyRound (qmul variance_pct 100) 2))] }

/-- Basename of a file path: pathlib's `.name`, with a path modelled as its
list of components. -/
def pathName (p : List String) : String := p.getLastD ""

/-- Python `v != s` against a str s: only an equal string compares equal, any
other value (or None, as `Option.none`) is unequal. -/
def neqStr (v : J) (s : String) : Bool :=
  match v with
  | J.str t => t != s
  | _ => true

/-- Python `v != s` when v may be None (`d.get` result). -/
def optNeqStr (v : Option J) (s : String) : Bool :=
  match v with
  | some w => neqStr w s
  | none => true

/-- Python value of a `d.get` result for embedding in a payload: a missing key
contributed None. -/
def optJ (v : Option J) : J := v.getD J.null

/-- Embeds check_bidirectional_references: the items → metadata direction is
checked first with defensive access (`items_data.get("metadata_file")`), the
metadata → items direction second with direct indexing; the first mismatch
returns FAIL with only that direction's details, a PASS reports both
filenames. -/
def check_bidirectional_references (items_data metadata_data : J)
    (items_filepath metadata_filepath : List String) : Except PyErr CheckResult := do
  let referenced_metadata ← pyGet items_data "metadata_file"
  let actual_metadata_name := pathName metadata_filepath
  if optNeqStr referenced_metadata actual_metadata_name then
    pure { check_name := "bidirectional_references", status := "FAIL",
           details := [("items_references", optJ referenced_metadata),
                       ("actual_metadata_file", J.str actual_metadata_name),
                       ("error", J.str "Items file references wrong metadata file")] }
  else do
    let output_files ← dget metadata_data "output_files"
    let referenced_items ← dget output_files "items_file"
    let actual_items_name := pathName items_filepath
    if neqStr referenced_items actual_items_name then
      pure { check_name := "bidirectional_references", status := "FAIL",
             details := [("metadata_references", referenced_items),
                         ("actual_items_file", J.str actual_items_name),
                         ("error", J.str "Metadata file references wrong items file")] }
    else
      pure { check_name := "bidirectional_references", status := "PASS",
             details := [("items_file", J.str actual_items_name),
                         ("metadata_file", J.str actual_metadata_name)] }

/-- Parsing a timestamp value: models
`datetime.fromisoformat(s.replace("Z", "+00:00"))`.  An ISO-8601 string is
abstracted by the epoch-second instant it denotes, carried in the document as
a JSON number; a non-numeric value models an unparseable or non-string
timestamp and raises. -/
def fromisoformat (j : J) : Except PyErr Rat :=
  match j with
  | J.int n => Except.ok (n : Rat)
  | J.flt q => Except.ok q
  | _ => Except.error PyErr.valueError

/-- Deviation of an item timestamp from the session window, as computed in the
loop body of check_timestamp_consistency: 0 inside the inclusive window,
otherwise the distance in seconds to the violated boundary. -/
def deviationOf (session_start session_end t : Rat) : Rat :=
  if t < session_start then qsub session_start t
  else if session_end < t then qsub t session_end
  else 0

/-- The `for idx, item in enumerate(items)` loop of check_timestamp_consistency:
threads the invalid-timestamps list and the running maximum deviation. -/
def tsScan (session_start session_end : Rat) (tol : Int) :
    Nat → List J → List J → Rat → Except PyErr (List J × Rat)
  | _, [], invalid, max_dev => Except.ok (invalid, max_dev)
  | idx, item :: rest, invalid, max_dev => do
    let tsJ ← dget item "scraped_at"
    let t ← fromisoformat tsJ
    let deviation := deviationOf session_start session_end t
    let max_dev' := qmax max_dev deviation
    let invalid' :=
      if deviation > (tol : Rat) then
        invalid ++ [J.obj [("item_index", J.int (idx : Int)),
                           ("item_timestamp", tsJ),
                           ("deviation_seconds", J.flt (pyRound deviation 2))]]
      else invalid
    tsScan session_start session_end tol (idx + 1) rest invalid' max_dev'

/-- Embeds check_timestamp_consistency: parses the session window, scans the
items, FAILs when any deviation exceeded the tolerance, reporting at most the
first 10 invalid items; both payloads carry max_deviation_seconds and
tolerance_seconds. -/
def check_timestamp_consistency (items_data metadata_data : J)
    (thresholds : QAThresholds) : Except PyErr CheckResult := do
  let session ← dget metadata_data "scraping_session"
  let startJ ← dget session "scrape_timestamp_start"
  let session_start ← fromisoformat startJ
  let endJ ← dget session "scrape_timestamp_end"
  let session_end ← fromisoformat endJ
  let itemsJ ← dget items_data "items"
  let items ← asArr itemsJ
  let pair ← tsScan session_start session_end thresholds.timestamp_deviation_seconds
      0 items [] 0
  let invalid_timestamps := pair.1
  let max_deviation := pair.2
  if invalid_timestamps.isEmpty then
    pure { check_name := "timestamp_consistency", status := "PASS",
           details := [("max_deviation_seconds", J.flt (pyRound max_deviation 2)),
                       ("tolerance_seconds", J.int thresholds.timestamp_deviation_seconds)] }
  else
    pure { check_name := "timestamp_consistency", status := "FAIL",
           details := [("invalid_items", J.arr (invalid_timestamps.take 10)),
                       ("total_invalid", J.int (invalid_timestamps.length : Int)),
                       ("max_deviation_seconds", J.flt (pyRound max_deviation 2)),
                       ("tolerance_seconds", J.int thresholds.timestamp_deviation_seconds)] }

/-- Python `item.get(field) not in [None, "", []]` is false exactly for a
missing key, null, the empty string and the empty list. -/
def isEmptyLike (v : Option J) : Bool :=
  match v with
  | none => true
  | some J.null => true
  | some (J.str s) => s.isEmpty
  | some (J.arr xs) => xs.isEmpty
  | _ => false

/-- Python `sum(1 for item in items if item.get(field) not in [None, "", []])`. -/
def countNonEmpty (field : String) : List J → Except PyErr Nat
  | [] => Except.ok 0
  | item :: rest => do
    let v ← pyGet item field
    let n ← countNonEmpty field rest
    pure (if isEmptyLike v then n else n + 1)

/-- The four fields whose completeness the script recomputes, in source
order. -/
def fcFields : List String := ["title", "price", "image_urls", "description"]

/-- Python round(x, 2) as stored in a payload, keeping int-ness: rounding an
int (or bool) returns it as an int. -/
def roundJ2 (j : J) (q : Rat) : J :=
  match j with
  | J.int n => J.int n
  | J.bool b => J.int (if b then 1 else 0)
  | _ => J.flt (pyRound q 2)

/-- The `for field, reported_pct in reported_completeness.items()` loop of
check_field_completeness_alignment: threads the mismatch list and the running
maximum difference; the actual completeness map defaults missing fields
to 0. -/
def fcScan (actual_completeness : List (String × Rat)) (tolPts : Rat) :
    List (String × J) → List J → Rat → Except PyErr (List J × Rat)
  | [], mismatches, max_difference => Except.ok (mismatches, max_difference)
  | (field, reportedJ) :: rest, mismatches, max_difference => do
    let reported_pct ← toNum reportedJ
    let actual_pct := (actual_completeness.lookup field).getD 0
    let difference := qabs (qsub reported_pct actual_pct)
    let max_difference' := qmax max_difference difference
    let mismatches' :=
      if difference > tolPts then
        mismatches ++ [J.obj [("field", J.str field),
                              ("reported", roundJ2 reportedJ reported_pct),
                              ("actual", J.flt (pyRound actual_pct 2)),
                              ("difference", J.flt (pyRound difference 2))]]
      else mismatches
    fcScan actual_completeness tolPts rest mismatches' max_difference'

/-- Embeds check_field_completeness_alignment: an empty items list FAILs
immediately with the "No items to validate" detail; otherwise the actual
completeness of the four fields is recomputed and compared entry by entry
against metadata.field_completeness, FAILing when any difference exceeds the
tolerance in percentage points. -/
def check_field_completeness_alignment (items_data metadata_data : J)
    (thresholds : QAThresholds) : Except PyErr CheckResult := do
  let reported_completeness ← dget metadata_data "field_completeness"
  let itemsJ ← dget items_data "items"
  let total_items ← pyLen itemsJ
  if total_items = 0 then
    pure { check_name := "field_completeness_alignment", status := "FAIL",
           details := [("error", J.str "No items to validate")] }
  else do
    let items ← asArr itemsJ
    let actual_completeness ← fcFields.mapM (fun field => do
      let c ← countNonEmpty field items
      pure (field, qmul (qdiv (c : Rat) (total_items : Rat)) 100))
    let reportedKVs ← asObj reported_completeness
    let pair ← fcScan actual_completeness (qmul thresholds.field_completeness_variance 100)
        reportedKVs [] 0
    let mismatches := pair.1
    let max_difference := pair.2
    if mismatches.isEmpty then
      pure { check_name := "field_completeness_alignment", status := "PASS",
             details := [("max_difference", J.flt (pyRound max_difference 2)),
                         ("tolerance", J.flt (qmul thresholds.field_completeness_variance 100))] }
    else
      pure { check_name := "field_completeness_alignment", status := "FAIL",
             details := [("mismatches", J.arr mismatches),
                         ("max_difference", J.flt (pyRound max_difference 2)),
                         ("tolerance", J.flt (qmul thresholds.field_completeness_variance 100))] }

/-- A root-cause record, a dict literal with the fixed keys issue /
description / recommendation and, only for selector causes, field (holding the
raw value taken from the mismatch payload). -/
structure RootCause where
  issue : String
  field : Option J := none
  description : String
  recommendation : String

/-- Python str() of a value as interpolated into the script's f-strings; the
pipeline only ever interpolates strings and ints, other shapes get a simple
printable form. -/
def pyStr (j : J) : String :=
  match j with
  | J.str s => s
  | J.int n => toString n
  | J.bool b => if b then "True" else "False"
  | J.null => "None"
  | J.flt q => toString q
  | J.arr _ => "<list>"
  | J.obj _ => "<dict>"

/-- Python numeric subtraction keeping the int/float distinction that str()
displays: int minus int is an int. -/
def jSub (a b : J) : Except PyErr J := do
  let qa ← toNum a
  let qb ← toNum b
  match a, b with
  | J.flt _, _ => pure (J.flt (qsub qa qb))
  | _, J.flt _ => pure (J.flt (qsub qa qb))
  | _, _ => pure (J.int (qsub qa qb).num)

/-- The `for mismatch in ... details.get("mismatches", [])` loop of
analyze_root_causes: one selector_accuracy cause per mismatch entry, in
order. -/
def selectorCauses : List J → Except PyErr (List RootCause)
  | [] => Except.ok []
  | mismatch :: rest => do
    let fieldJ ← dget mismatch "field"
    let more ← selectorCauses rest
    pure ({ issue := "selector_accuracy", field := some fieldJ,
            description := "Selector for '" ++ pyStr fieldJ ++ "' not matching all variants",
            recommendation := "Add fallback selector for " ++ pyStr fieldJ ++ " field" } :: more)

/-- The item-count block of analyze_root_causes: a pagination_end_condition
cause when actual < reported, a duplicate_items cause when actual >
reported. -/
def itemCountCauses (checks : List (String × CheckResult)) :
    Except PyErr (List RootCause) :=
  match checks.lookup "item_count_consistency" with
  | some c =>
    if c.status = "FAIL" then do
      let reportedJ ← dget (J.obj c.details) "reported"
      let actualJ ← dget (J.obj c.details) "actual"
      let reported ← toNum reportedJ
      let actual ← toNum actualJ
      if actual < reported then do
        let diff ← jSub reportedJ actualJ
        pure [{ issue := "pagination_end_condition",
                description := "Pagination logic stopped early (missing "
                  ++ pyStr diff ++ " items)",
                recommendation := "Review pagination end condition in scraper code"
                : RootCause }]
      else if reported < actual then do
        let diff ← jSub actualJ reportedJ
        pure [{ issue := "duplicate_items",
                description := "More items scraped than expected ("
                  ++ pyStr diff ++ " extra)",
                recommendation := "Check for duplicate items or incorrect counting logic"
                : RootCause }]
      else pure []
    else pure []
  | none => pure []

/-- The field-completeness block of analyze_root_causes: one
selector_accuracy cause per mismatch entry. -/
def completenessCauses (checks : List (String × CheckResult)) :
    Except PyErr (List RootCause) :=
  match checks.lookup "field_completeness_alignment" with
  | some c =>
    if c.status = "FAIL" then do
      let ms ← asArr ((c.details.lookup "mismatches").getD (J.arr []))
      selectorCauses ms
    else pure []
  | none => pure []

/-- Embeds analyze_root_causes: the item-count causes followed by the
completeness causes. -/
def analyze_root_causes (checks : List (String × CheckResult)) :
    Except PyErr (List RootCause) := do
  let ic ← itemCountCauses checks
  let cc ← completenessCauses checks
  pure (ic ++ cc)

/-- Embeds calculate_data_quality_score: 0.0 on an empty check map, otherwise
round((passed / total) * 100, 1). -/
def calculate_data_quality_score (checks : List (String × CheckResult)) : Rat :=
  if checks.isEmpty then 0
  else
    pyRound (qmul (qdiv ((checks.countP (fun c => c.2.status == "PASS")) : Rat)
      ((checks.length : Nat) : Rat)) 100) 1

/-- The QA report.  The wall-clock timestamp field (datetime.utcnow) carries
no checked content and is omitted from the model; the checks dict is its
insertion-ordered entry list. -/
structure QAReport where
  status : String
  checks : List (String × CheckResult)
  data_quality_score : Rat
  root_cause_analysis : Option (List RootCause) := none
  recommended_actions : Option (List String) := none

/-- What the filesystem holds at a path: none for no file (FileNotFoundError),
some none for a file whose content is not valid JSON (JSONDecodeError),
some (some j) for a file parsing to j. -/
def FS : Type := List String → Option (Option J)

/-- How a run ends without a report: sys.exit(code) from load_json_file, or an
exception escaping a check. -/
inductive Fatal : Type where
  | exited (code : Nat) : Fatal
  | raised (e : PyErr) : Fatal

/-- Embeds load_json_file: parse a JSON file, exiting the process with code 2
on a missing file or malformed JSON. -/
def load_json_file (fs : FS) (filepath : List String) : Except Fatal J :=
  match fs filepath with
  | none => Except.error (Fatal.exited 2)
  | some none => Except.error (Fatal.exited 2)
  | some (some j) => Except.ok j

/-- An exception escaping a check or the analysis aborts run_qa_crosscheck. -/
def liftPy {α : Type} (r : Except PyErr α) : Except Fatal α :=
  match r with
  | Except.ok a => Except.ok a
  | Except.error e => Except.error (Fatal.raised e)

/-- Embeds run_qa_crosscheck: load both documents, run the four checks in
order, FAIL overall when any check failed, run root-cause analysis only then,
and drop the two optional report fields to None when the cause list is empty
(Python truthiness of the lists). -/
def run_qa_crosscheck (fs : FS) (items_file metadata_file : List String)
    (thresholds : QAThresholds) : Except Fatal QAReport := do
  let items_data ← load_json_file fs items_file
  let metadata_data ← load_json_file fs metadata_file
  let c1 ← liftPy (check_item_count_consistency items_data metadata_data thresholds)
  let c2 ← liftPy (check_bidirectional_references items_data metadata_data
      items_file metadata_file)
  let c3 ← liftPy (check_timestamp_consistency items_data metadata_data thresholds)
  let c4 ← liftPy (check_field_completeness_alignment items_data metadata_data thresholds)
  let checks : List (String × CheckResult) :=
    [("item_count_consistency", c1), ("bidirectional_references", c2),
     ("timestamp_consistency", c3), ("field_completeness_alignment", c4)]
  let overall_status := if checks.any (fun c => c.2.status == "FAIL") then "FAIL" else "PASS"
  let rootPair : Option (List RootCause) × Option (List String) ←
    if overall_status = "FAIL" then do
      let root_causes ← liftPy (analyze_root_causes checks)
      let recommended_actions := root_causes.map (fun c => c.recommendation)
      pure (if root_causes.isEmpty then none else some root_causes,
            if recommended_actions.isEmpty then none else some recommended_actions)
    else pure (none, none)
  pure { status := overall_status, checks := checks,
         data_quality_score := calculate_data_quality_score checks,
         root_cause_analysis := rootPair.1, recommended_actions := rootPair.2 }

/-- How the process ends: an exit code, or a traceback from an uncaught
exception. -/
inductive MainResult : Type where
  | exitCode (code : Nat) : MainResult
  | uncaught (e : PyErr) : MainResult

/-- Embeds main's exit behaviour (argument parsing and report printing carry no
checked content; the thresholds built from --tolerance are a parameter):
exit 2 comes from load_json_file, otherwise exit 0 on a PASS report and 1 on a
FAIL report. -/
def pymain (fs : FS) (items_file metadata_file : List String)
    (thresholds : QAThresholds) : MainResult :=
  match run_qa_crosscheck fs items_file metadata_file thresholds with
  | Except.error (Fatal.exited code) => MainResult.exitCode code
  | Except.error (Fatal.raised e) => MainResult.uncaught e
  | Except.ok report => MainResult.exitCode (if report.status = "PASS" then 0 else 1)

/-- An items document holding the given metadata_file back-reference and item
list. -/
def mkItemsDoc (metadata_file : String) (items : List J) : J :=
  J.obj [("metadata_file", J.str metadata_file), ("items", J.arr items)]

/-- A schema-conformant metadata document with exactly the fields the four
checks read: the session window, the reported item count, the four
field-completeness percentages in schema order, and the items_file
back-reference. -/
def mkMetaDoc (total_items_found : Int) (items_file : String)
    (tstart tend : Rat) (fcTitle fcPrice fcImages fcDescription : Rat) : J :=
  J.obj [("scraping_session",
            J.obj [("scrape_timestamp_start", J.flt tstart),
                   ("scrape_timestamp_end", J.flt tend)]),
         ("items_summary", J.obj [("total_items_found", J.int total_items_found)]),
         ("field_completeness",
            J.obj [("title", J.flt fcTitle), ("price", J.flt fcPrice),
                   ("image_urls", J.flt fcImages), ("description", J.flt fcDescription)]),
         ("output_files", J.obj [("items_file", J.str items_file)])]

/-- A fully-populated item scraped at instant t. -/
def mkItem (t : Rat) : J :=
  J.obj [("title", J.str "a title"), ("price", J.obj [("amount", J.int 1)]),
         ("image_urls", J.arr [J.str "u"]), ("description", J.str "a description"),
         ("scraped_at", J.flt t)]

/-- A two-file filesystem holding the items and metadata documents at the
given paths. -/
def mkFS (items_path metadata_path : List String) (items_doc metadata_doc : J) : FS :=
  fun p =>
    if p = items_path then some (some items_doc)
    else if p = metadata_path then some (some metadata_doc)
    else none

/-- An item carrying only its scrape instant, for timestamp-check statements. -/
def mkTsItem (t : Rat) : J := J.obj [("scraped_at", J.flt t)]

/-- The report of a successful run (a dummy report on a failed one), for
stating facts about concrete runs. -/
def reportOf (fs : FS) (items_file metadata_file : List String)
    (thresholds : QAThresholds) : QAReport :=
  (run_qa_crosscheck fs items_file metadata_file thresholds).toOption.getD
    { status := "", checks := [], data_quality_score := 0 }

/-- Stated from the spec sentence of claim C1: the dual gate written with the
denominator max(reported, 1). -/
def specItemCountGate (reported actual : Rat) (thresholds : QAThresholds) : Prop :=
  |reported - actual| / max reported 1 > thresholds.item_count_variance ∧
  |reported - actual| > (thresholds.item_count_absolute : Rat)

/-- Stated from the spec: actual completeness percentage of a field over a
nonempty item list — 100 × (count of items where the field is non-empty) /
total, with non-empty meaning not null, not empty string, not empty
sequence. -/
def specActualPct (items : List (List (String × J))) (field : String) : Rat :=
  (((items.countP (fun kvs => !(isEmptyLike (kvs.lookup field)))) : Rat)
    / (items.length : Rat)) * 100

/-- Stated from the spec: a field mismatches when the reported percentage is
farther than the tolerance (in points) from the actual percentage. -/
def specFCMismatch (items : List (List (String × J))) (reported : Rat)
    (field : String) (thresholds : QAThresholds) : Prop :=
  |reported - specActualPct items field| > thresholds.field_completeness_variance * 100

/-- Stated from the spec: the root cause emitted when the scrape came up n
items short. -/
def specPaginationCause (n : Int) : RootCause :=
  { issue := "pagination_end_condition",
    description := "Pagination logic stopped early (missing " ++ toString n ++ " items)",
    recommendation := "Review pagination end condition in scraper code" }

/-- Stated from the spec: the root cause emitted when the scrape produced n
extra items. -/
def specDuplicateCause (n : Int) : RootCause :=
  { issue := "duplicate_items",
    description := "More items scraped than expected (" ++ toString n ++ " extra)",
    recommendation := "Check for duplicate items or incorrect counting logic" }

/-- Stated from the spec: the root cause emitted for one mismatched
completeness field. -/
def specSelectorCause (field : String) : RootCause :=
  { issue := "selector_accuracy", field := some (J.str field),
    description := "Selector for '" ++ field ++ "' not matching all variants",
    recommendation := "Add fallback selector for " ++ field ++ " field" }

/-- Stated from the spec: the report entry for one invalid timestamp, holding
the item's index, raw timestamp and deviation. -/
def specInvalidEntry (session_start session_end : Rat) (p : Nat × Rat) : J :=
  J.obj [("item_index", J.int (p.1 : Int)), ("item_timestamp", J.flt p.2),
         ("deviation_seconds", J.flt (pyRound (deviationOf session_start session_end p.2) 2))]

/-- Path fixture for concrete runs. -/
def fixtureItemsPath : List String := ["out", "items.json"]

/-- Path fixture for concrete runs. -/
def fixtureMetaPath : List String := ["out", "metadata.json"]

/-- A fully consistent items document fixture. -/
def fixtureItemsDoc : J := mkItemsDoc "metadata.json" [mkItem 1, mkItem 2]

/-- A metadata document fixture matching fixtureItemsDoc. -/
def fixtureMetaDoc : J := mkMetaDoc 2 "items.json" 0 10 100 100 100 100

/-- A filesystem on which every check passes. -/
def fixturePassFS : FS := mkFS fixtureItemsPath fixtureMetaPath fixtureItemsDoc fixtureMetaDoc

/-- An items document fixture whose metadata back-reference is wrong. -/
def fixtureBadRefItemsDoc : J := mkItemsDoc "wrong.json" [mkItem 1, mkItem 2]

/-- A filesystem on which only the bidirectional-reference check fails. -/
def fixtureBadRefFS : FS :=
  mkFS fixtureItemsPath fixtureMetaPath fixtureBadRefItemsDoc fixtureMetaDoc

/-- An items document fixture five items short of its metadata's count. -/
def fixtureShortItemsDoc : J := mkItemsDoc "metadata.json" (List.replicate 5 (mkItem 1))

/-- A metadata document fixture reporting ten items. -/
def fixtureShortMetaDoc : J := mkMetaDoc 10 "items.json" 0 10 100 100 100 100

/-- A filesystem on which the item-count check fails with actual < reported. -/
def fixtureShortFS : FS :=
  mkFS fixtureItemsPath fixtureMetaPath fixtureShortItemsDoc fixtureShortMetaDoc

/-
Bridge lemmas: the kernel-computable rational operations agree with the
standard ones, so theorem statements can use the usual symbols.
-/

theorem qsub_eq (a b : Rat) : qsub a b = a - b := by
  rw [qsub, Rat.mkRat_eq_div]
  have ha : ((a.den : ℚ)) ≠ 0 := by exact_mod_cast a.den_nz
  have hb : ((b.den : ℚ)) ≠ 0 := by exact_mod_cast b.den_nz
  conv_rhs => rw [← Rat.num_div_den a, ← Rat.num_div_den b]
  push_cast
  field_simp
  ring

theorem qmul_eq (a b : Rat) : qmul a b = a * b := by
  rw [qmul, Rat.mkRat_eq_div]
  have ha : ((a.den : ℚ)) ≠ 0 := by exact_mod_cast a.den_nz
  have hb : ((b.den : ℚ)) ≠ 0 := by exact_mod_cast b.den_nz
  conv_rhs => rw [← Rat.num_div_den a, ← Rat.num_div_den b]
  push_cast
  field_simp

theorem qinv_eq (b : Rat) : qinv b = b⁻¹ := by
  rw [qinv]
  rcases lt_trichotomy b.num 0 with h | h | h
  · rw [if_pos h, Rat.mkRat_eq_div]
    conv_rhs => rw [← Rat.num_div_den b]
    rw [inv_div]
    push_cast [Int.cast_natAbs]
    rw [abs_of_neg (by exact_mod_cast h)]
    ring_nf
  · rw [if_neg (by omega), h]
    simp [Rat.num_eq_zero.mp h]
  · rw [if_neg (by omega), Rat.mkRat_eq_div]
    conv_rhs => rw [← Rat.num_div_den b]
    rw [inv_div]
    push_cast [Int.cast_natAbs]
    rw [abs_of_pos (by exact_mod_cast h)]

theorem qdiv_eq (a b : Rat) : qdiv a b = a / b := by
  rw [qdiv, qmul_eq, qinv_eq, div_eq_mul_inv]

theorem qabs_eq (a : Rat) : qabs a = |a| := by
  rw [qabs]
  rcases lt_or_le a 0 with h | h
  · rw [if_pos h, abs_of_neg h, Rat.mkRat_eq_div]
    conv_rhs => rw [← Rat.num_div_den a]
    push_cast
    rw [neg_div]
  · rw [if_neg (not_lt.mpr h), abs_of_nonneg h]

theorem qmax_eq (a b : Rat) : qmax a b = max a b := by
  rw [qmax]
  rcases lt_trichotomy a b with h | h | h
  · rw [if_pos h, max_eq_right (le_of_lt h)]
  · simp [h]
  · rw [if_neg (not_lt.mpr (le_of_lt h)), max_eq_left (le_of_lt h)]

/-- Reduction of the item-count check on well-formed documents: the binds all
succeed and the result is the dual-gate conditional, by computation. -/
theorem check_item_count_reduce (mf ifile : String) (items : List J) (reported : Int)
    (ts te f1 f2 f3 f4 : Rat) (th : QAThresholds) :
    check_item_count_consistency (mkItemsDoc mf items)
      (mkMetaDoc reported ifile ts te f1 f2 f3 f4) th =
    (if (if ((reported : Int) : Rat) = 0 then 0
         else qdiv (qabs (qsub ((reported : Int) : Rat) ((items.length : Nat) : Rat)))
           ((reported : Int) : Rat)) > th.item_count_variance ∧
        qabs (qsub ((reported : Int) : Rat) ((items.length : Nat) : Rat))
          > ((th.item_count_absolute : Int) : Rat) then
      Except.ok ⟨"item_count_consistency", "FAIL",
        [("reported", J.int reported),
         ("actual", J.int ((items.length : Nat) : Int)),
         ("variance_pct", J.flt (pyRound (qmul (if ((reported : Int) : Rat) = 0 then 0
           else qdiv (qabs (qsub ((reported : Int) : Rat) ((items.length : Nat) : Rat)))
             ((reported : Int) : Rat)) 100) 2)),
         ("variance_abs", J.int (((reported - ((items.length : Nat) : Int)).natAbs : Nat) : Int)),
         ("tolerance_pct", J.flt (qmul th.item_count_variance 100)),
         ("tolerance_abs", J.int th.item_count_absolute)]⟩
    else
      Except.ok ⟨"item_count_consistency", "PASS",
        [("reported", J.int reported),
         ("actual", J.int ((items.length : Nat) : Int)),
         ("variance", J.flt (pyRound (qmul (if ((reported : Int) : Rat) = 0 then 0
           else qdiv (qabs (qsub ((reported : Int) : Rat) ((items.length : Nat) : Rat)))
             ((reported : Int) : Rat)) 100) 2))]⟩) := rfl

/-- C1: proved false as stated — the percentage gate of the claim, written
|reported−actual| / max(reported,1), disagrees with the code when
reported = 0: at reported = 0, actual = 10 and default thresholds both of the
claim's gates hold, yet the check returns PASS, because the code defines
variance_pct as 0.0 there and the percentage gate is checked against that. -/
theorem itemCount_maxGate_counterexample :
    specItemCountGate 0 10 defaultThresholds ∧
    (check_item_count_consistency (mkItemsDoc "metadata.json" (List.replicate 10 J.null))
        (mkMetaDoc 0 "items.json" 0 10 100 100 100 100) defaultThresholds).map
      (fun c => c.status) = Except.ok "PASS" := by
  constructor
  · constructor
    · show |(0 : ℚ) - 10| / max 0 1 > defaultThresholds.item_count_variance
      have h : defaultThresholds.item_count_variance = mkRat 2 100 := rfl
      rw [h, Rat.mkRat_eq_div]
      norm_num
    · show |(0 : ℚ) - 10| > ((3 : Int) : Rat)
      norm_num
  · rfl

/-- C1 (amended): for every reported count, item list and thresholds, the
item-count check FAILs iff both the percentage gate — variance_pct being 0.0
when reported = 0 and |reported−actual|/reported otherwise — and the absolute
gate |reported−actual| > item_count_absolute hold, and PASSes whenever either
gate is unmet; in particular a reported = 0 run always PASSes when the
percentage tolerance is nonnegative. -/
theorem itemCount_dual_gate (mf ifile : String) (items : List J) (reported : Int)
    (ts te f1 f2 f3 f4 : Rat) (th : QAThresholds) :
    ∃ r : CheckResult,
      check_item_count_consistency (mkItemsDoc mf items)
        (mkMetaDoc reported ifile ts te f1 f2 f3 f4) th = Except.ok r ∧
      r.check_name = "item_count_consistency" ∧
      (r.status = "FAIL" ↔
        (if ((reported : Int) : Rat) = 0 then 0
         else |((reported : Int) : Rat) - (items.length : Rat)| / ((reported : Int) : Rat))
            > th.item_count_variance ∧
        |((reported : Int) : Rat) - (items.length : Rat)| > (th.item_count_absolute : Rat)) ∧
      (r.status = "FAIL" ∨ r.status = "PASS") ∧
      (reported = 0 → 0 ≤ th.item_count_variance → r.status = "PASS") := by
  rw [check_item_count_reduce]
  simp only [qdiv_eq, qabs_eq, qsub_eq]
  by_cases hC : (if ((reported : Int) : Rat) = 0 then 0
      else |((reported : Int) : Rat) - (items.length : Rat)| / ((reported : Int) : Rat))
        > th.item_count_variance ∧
      |((reported : Int) : Rat) - (items.length : Rat)| > (th.item_count_absolute : Rat)
  · rw [if_pos hC]
    refine ⟨_, rfl, rfl, ?_, Or.inl rfl, ?_⟩
    · exact ⟨fun _ => hC, fun _ => rfl⟩
    · intro h0 hnn
      exfalso
      have hz : ((reported : Int) : Rat) = 0 := by rw [h0]; norm_num
      have hlt := hC.1
      rw [if_pos hz] at hlt
      exact absurd hlt (not_lt.mpr hnn)
  · rw [if_neg hC]
    refine ⟨_, rfl, rfl, ?_, Or.inr rfl, fun _ _ => rfl⟩
    constructor
    · intro h
      exact absurd h (by simp)
    · intro h
      exact absurd h hC

theorem bind_ok {ε α β : Type} (a : α) (f : α → Except ε β) :
    (Except.ok a : Except ε α) >>= f = f a := rfl

theorem bind_err {ε α β : Type} (e : ε) (f : α → Except ε β) :
    (Except.error e : Except ε α) >>= f = Except.error e := rfl

/-- C5: proved false as stated — field access in the checks is not all
defensive: a metadata document missing items_summary makes the item-count
check raise KeyError instead of returning a CheckResult, and the exception
escapes run_qa_crosscheck, so none of the remaining checks runs or reports. -/
theorem defensive_access_counterexample :
    check_item_count_consistency (mkItemsDoc "metadata.json" [mkItem 1]) (J.obj [])
      defaultThresholds = Except.error (PyErr.keyError "items_summary") ∧
    run_qa_crosscheck
      (mkFS ["items.json"] ["metadata.json"] (mkItemsDoc "metadata.json" [mkItem 1])
        (J.obj []))
      ["items.json"] ["metadata.json"] defaultThresholds =
    Except.error (Fatal.raised (PyErr.keyError "items_summary")) := ⟨rfl, rfl⟩

/-- C5 (amended): only part of the field access is defensive.  The items
document's metadata_file reference is read with .get, so an items document
missing it still yields a (FAIL) CheckResult from the bidirectional check;
but the metadata document's structural fields are indexed directly, so
metadata missing items_summary makes the item-count check raise KeyError
rather than return a CheckResult. -/
theorem defensive_access_mixed (ikvs mkvs : List (String × J)) (items_data : J)
    (ip mp : List String) (th : QAThresholds) :
    (ikvs.lookup "metadata_file" = none →
      check_bidirectional_references (J.obj ikvs) (J.obj mkvs) ip mp =
        Except.ok ⟨"bidirectional_references", "FAIL",
          [("items_references", J.null),
           ("actual_metadata_file", J.str (pathName mp)),
           ("error", J.str "Items file references wrong metadata file")]⟩) ∧
    (mkvs.lookup "items_summary" = none →
      check_item_count_consistency items_data (J.obj mkvs) th =
        Except.error (PyErr.keyError "items_summary")) := by
  constructor
  · intro h
    simp only [check_bidirectional_references, pyGet, h, bind_ok, optNeqStr, optJ]
    rfl
  · intro h
    simp only [check_item_count_consistency, dget, h, bind_err]

/-- Witness for the amended C5 at the empty documents. -/
theorem defensive_access_mixed_witness :
    check_bidirectional_references (J.obj []) (J.obj []) ["items.json"] ["metadata.json"] =
      Except.ok ⟨"bidirectional_references", "FAIL",
        [("items_references", J.null), ("actual_metadata_file", J.str "metadata.json"),
         ("error", J.str "Items file references wrong metadata file")]⟩ ∧
    check_item_count_consistency (J.obj []) (J.obj []) defaultThresholds =
      Except.error (PyErr.keyError "items_summary") :=
  ⟨(defensive_access_mixed [] [] (J.obj []) ["items.json"] ["metadata.json"]
      defaultThresholds).1 rfl,
   (defensive_access_mixed [] [] (J.obj []) ["items.json"] ["metadata.json"]
      defaultThresholds).2 rfl⟩

/-- C10: an items document whose items sequence is empty, read against
metadata with a parseable session window, PASSes the timestamp check with
max_deviation_seconds 0 — the per-item loop is vacuous and the maximum is its
initial 0 — while the same empty scrape FAILs the field-completeness check. -/
theorem emptyItems_timestamp_pass (mf ifile : String) (n : Int)
    (ts te f1 f2 f3 f4 : Rat) (th : QAThresholds) :
    check_timestamp_consistency (mkItemsDoc mf [])
        (mkMetaDoc n ifile ts te f1 f2 f3 f4) th =
      Except.ok ⟨"timestamp_consistency", "PASS",
        [("max_deviation_seconds", J.flt 0),
         ("tolerance_seconds", J.int th.timestamp_deviation_seconds)]⟩ ∧
    check_field_completeness_alignment (mkItemsDoc mf [])
        (mkMetaDoc n ifile ts te f1 f2 f3 f4) th =
      Except.ok ⟨"field_completeness_alignment", "FAIL",
        [("error", J.str "No items to validate")]⟩ :=
  ⟨rfl, rfl⟩

/-- Reduction of the bidirectional-reference check on well-formed documents,
by computation. -/
theorem check_bidir_reduce (mref iref : String) (items : List J) (n : Int)
    (ts te f1 f2 f3 f4 : Rat) (ip mp : List String) :
    check_bidirectional_references (mkItemsDoc mref items)
      (mkMetaDoc n iref ts te f1 f2 f3 f4) ip mp =
    (if mref != pathName mp then
      Except.ok ⟨"bidirectional_references", "FAIL",
        [("items_references", J.str mref),
         ("actual_metadata_file", J.str (pathName mp)),
         ("error", J.str "Items file references wrong metadata file")]⟩
    else if iref != pathName ip then
      Except.ok ⟨"bidirectional_references", "FAIL",
        [("metadata_references", J.str iref),
         ("actual_items_file", J.str (pathName ip)),
         ("error", J.str "Metadata file references wrong items file")]⟩
    else
      Except.ok ⟨"bidirectional_references", "PASS",
        [("items_file", J.str (pathName ip)),
         ("metadata_file", J.str (pathName mp))]⟩) := rfl

/-- C7: the bidirectional-reference check FAILs iff the items document's
metadata_file differs from the basename of the metadata path or the metadata
document's output_files.items_file differs from the basename of the items
path; the items→metadata direction is checked first and when it fails only
that direction's error payload is reported, a broken metadata→items direction
alone reports only its own payload, and a PASS reports both matched
filenames. -/
theorem bidirectional_refs_characterization (mref iref : String) (items : List J)
    (n : Int) (ts te f1 f2 f3 f4 : Rat) (ip mp : List String) :
    ∃ r : CheckResult,
      check_bidirectional_references (mkItemsDoc mref items)
        (mkMetaDoc n iref ts te f1 f2 f3 f4) ip mp = Except.ok r ∧
      r.check_name = "bidirectional_references" ∧
      (r.status = "FAIL" ↔ (mref ≠ pathName mp ∨ iref ≠ pathName ip)) ∧
      (r.status = "FAIL" ∨ r.status = "PASS") ∧
      (mref ≠ pathName mp →
        r.details = [("items_references", J.str mref),
                     ("actual_metadata_file", J.str (pathName mp)),
                     ("error", J.str "Items file references wrong metadata file")]) ∧
      (mref = pathName mp → iref ≠ pathName ip →
        r.details = [("metadata_references", J.str iref),
                     ("actual_items_file", J.str (pathName ip)),
                     ("error", J.str "Metadata file references wrong items file")]) ∧
      (mref = pathName mp → iref = pathName ip →
        r.status = "PASS" ∧
        r.details = [("items_file", J.str (pathName ip)),
                     ("metadata_file", J.str (pathName mp))]) := by
  rw [check_bidir_reduce]
  by_cases h1 : mref = pathName mp
  · by_cases h2 : iref = pathName ip
    · rw [if_neg (by simp [h1]), if_neg (by simp [h2])]
      refine ⟨_, rfl, rfl, ?_, Or.inr rfl, ?_, ?_, fun _ _ => ⟨rfl, rfl⟩⟩
      · simp [h1, h2]
      · intro hc
        exact absurd h1 hc
      · intro _ hc
        exact absurd h2 hc
    · rw [if_neg (by simp [h1]), if_pos (by simp [h2])]
      refine ⟨_, rfl, rfl, ?_, Or.inl rfl, ?_, fun _ _ => rfl, ?_⟩
      · simp [h2]
      · intro hc
        exact absurd h1 hc
      · intro _ hc
        exact absurd hc h2
  · rw [if_pos (by simp [h1])]
    refine ⟨_, rfl, rfl, ?_, Or.inl rfl, fun _ => rfl, ?_, ?_⟩
    · simp [h1]
    · intro hc
      exact absurd hc h1
    · intro hc
      exact absurd hc h1

theorem bind_eq_ok {ε α β : Type} {x : Except ε α} {f : α → Except ε β} {b : β}
    (h : x >>= f = Except.ok b) : ∃ a, x = Except.ok a ∧ f a = Except.ok b := by
  cases x with
  | ok a => exact ⟨a, rfl, h⟩
  | error e => exact Except.noConfusion h

theorem liftPy_eq_ok {α : Type} {r : Except PyErr α} {a : α} :
    liftPy r = Except.ok a ↔ r = Except.ok a := by
  cases r <;> simp [liftPy]

theorem isEmpty_map {α β : Type} (f : α → β) (l : List α) :
    (l.map f).isEmpty = l.isEmpty := by
  cases l <;> rfl

/-- Inversion of a successful run: the four checks all returned results
c1..c4, the report lists them under their names in order, the overall status
is the any-FAIL conditional, the score is the scoring function of exactly
that check list, and the two optional fields are as the FAIL branch (or the
PASS branch) built them. -/
theorem run_qa_inversion (fs : FS) (ip mp : List String) (th : QAThresholds)
    (report : QAReport) (h : run_qa_crosscheck fs ip mp th = Except.ok report) :
    ∃ c1 c2 c3 c4 : CheckResult,
      report.checks = [("item_count_consistency", c1), ("bidirectional_references", c2),
                       ("timestamp_consistency", c3), ("field_completeness_alignment", c4)] ∧
      report.status =
        (if report.checks.any (fun c => c.2.status == "FAIL") then "FAIL" else "PASS") ∧
      report.data_quality_score = calculate_data_quality_score report.checks ∧
      (report.status = "FAIL" →
        ∃ rcs, analyze_root_causes report.checks = Except.ok rcs ∧
          report.root_cause_analysis = (if rcs.isEmpty then none else some rcs) ∧
          report.recommended_actions =
            (if rcs.isEmpty then none
             else some (rcs.map (fun c => c.recommendation)))) ∧
      (report.status = "PASS" → report.root_cause_analysis = none ∧
        report.recommended_actions = none) := by
  simp only [run_qa_crosscheck] at h
  obtain ⟨items_data, hl1, h⟩ := bind_eq_ok h
  obtain ⟨metadata_data, hl2, h⟩ := bind_eq_ok h
  obtain ⟨c1, hc1, h⟩ := bind_eq_ok h
  obtain ⟨c2, hc2, h⟩ := bind_eq_ok h
  obtain ⟨c3, hc3, h⟩ := bind_eq_ok h
  obtain ⟨c4, hc4, h⟩ := bind_eq_ok h
  refine ⟨c1, c2, c3, c4, ?_⟩
  by_cases hA : [("item_count_consistency", c1), ("bidirectional_references", c2),
      ("timestamp_consistency", c3),
      ("field_completeness_alignment", c4)].any (fun c => c.2.status == "FAIL")
  · rw [if_pos hA, if_pos rfl] at h
    obtain ⟨rcs, hrc, h⟩ := bind_eq_ok h
    obtain ⟨rcs', hrc', h⟩ := bind_eq_ok h
    cases hrc'
    simp only [pure] at h
    cases h
    simp only [liftPy_eq_ok] at hrc
    refine ⟨rfl, by rw [if_pos hA], rfl, ?_, ?_⟩
    · intro _
      exact ⟨rcs, hrc, rfl, by rw [isEmpty_map]⟩
    · intro hPF
      exact absurd hPF (by simp [if_pos hA])
  · rw [if_neg hA, if_neg (by simp)] at h
    obtain ⟨pr, hpr, h⟩ := bind_eq_ok h
    cases hpr
    simp only [pure] at h
    cases h
    refine ⟨rfl, by rw [if_neg hA], rfl, ?_, fun _ => ⟨rfl, rfl⟩⟩
    intro hFF
    exact absurd hFF (by simp [if_neg hA])

/-- C2: proved false as stated — the "whenever status is FAIL" direction
fails on the code: a run failing only the bidirectional-reference check
(items back-reference wrong, everything else consistent) yields a FAIL report
whose root-cause list is empty, and both optional fields are dropped to None
rather than populated. -/
theorem report_optionals_counterexample :
    ∃ report : QAReport, run_qa_crosscheck fixtureBadRefFS fixtureItemsPath fixtureMetaPath
        defaultThresholds = Except.ok report ∧
      report.status = "FAIL" ∧ report.root_cause_analysis = none ∧
      report.recommended_actions = none :=
  ⟨_, rfl, rfl, rfl, rfl⟩

/-- C2 (amended): in every report, root_cause_analysis and
recommended_actions are both present or both absent, presence implies the
status is FAIL, and when both are present their lengths agree; a FAIL report
carries them only when the analysis produced at least one cause. -/
theorem report_optionals_invariant (fs : FS) (ip mp : List String) (th : QAThresholds)
    (report : QAReport) (h : run_qa_crosscheck fs ip mp th = Except.ok report) :
    (report.root_cause_analysis = none ↔ report.recommended_actions = none) ∧
    (report.root_cause_analysis ≠ none → report.status = "FAIL") ∧
    (∀ rcs ras, report.root_cause_analysis = some rcs →
      report.recommended_actions = some ras → ras.length = rcs.length) := by
  obtain ⟨c1, c2, c3, c4, hchecks, hstatus, hscore, hfail, hpass⟩ :=
    run_qa_inversion fs ip mp th report h
  by_cases hS : report.status = "FAIL"
  · obtain ⟨rcs, hrc, hrca, hra⟩ := hfail hS
    by_cases hE : rcs.isEmpty
    · rw [if_pos hE] at hrca
      rw [if_pos hE] at hra
      exact ⟨by simp [hrca, hra], fun _ => hS, by simp [hrca]⟩
    · rw [if_neg hE] at hrca
      rw [if_neg hE] at hra
      refine ⟨by simp [hrca, hra], fun _ => hS, ?_⟩
      intro rcs' ras' h1 h2
      rw [hrca] at h1
      rw [hra] at h2
      cases h1
      cases h2
      simp
  · have hP : report.status = "PASS" := by
      rw [hstatus] at hS ⊢
      by_cases hA : report.checks.any (fun c => c.2.status == "FAIL")
      · rw [if_pos hA] at hS
        exact absurd rfl hS
      · rw [if_neg hA]
    obtain ⟨h1, h2⟩ := hpass hP
    exact ⟨by simp [h1, h2], fun hne => absurd h1 hne, by simp [h1]⟩

/-- Witness for the amended C2 at a concrete all-passing run. -/
theorem report_optionals_invariant_witness :
    ((reportOf fixturePassFS fixtureItemsPath fixtureMetaPath
        defaultThresholds).root_cause_analysis = none ↔
      (reportOf fixturePassFS fixtureItemsPath fixtureMetaPath
        defaultThresholds).recommended_actions = none) ∧
    ((reportOf fixturePassFS fixtureItemsPath fixtureMetaPath
        defaultThresholds).root_cause_analysis ≠ none →
      (reportOf fixturePassFS fixtureItemsPath fixtureMetaPath
        defaultThresholds).status = "FAIL") ∧
    (∀ rcs ras, (reportOf fixturePassFS fixtureItemsPath fixtureMetaPath
        defaultThresholds).root_cause_analysis = some rcs →
      (reportOf fixturePassFS fixtureItemsPath fixtureMetaPath
        defaultThresholds).recommended_actions = some ras → ras.length = rcs.length) :=
  report_optionals_invariant fixturePassFS fixtureItemsPath fixtureMetaPath defaultThresholds
    (reportOf fixturePassFS fixtureItemsPath fixtureMetaPath defaultThresholds) rfl

/-- Evaluation of the quality score for each possible pass tally out of 4. -/
theorem score_formula (k : Nat) (hk : k ≤ 4) :
    pyRound (qmul (qdiv ((k : Nat) : Rat) ((4 : Nat) : Rat)) 100) 1 =
      100 * ((k : Nat) : Rat) / 4 := by
  interval_cases k
  · rw [show pyRound (qmul (qdiv ((0 : Nat) : Rat) ((4 : Nat) : Rat)) 100) 1 = 0 from rfl]
    norm_num
  · rw [show pyRound (qmul (qdiv ((1 : Nat) : Rat) ((4 : Nat) : Rat)) 100) 1 = 25 from rfl]
    norm_num
  · rw [show pyRound (qmul (qdiv ((2 : Nat) : Rat) ((4 : Nat) : Rat)) 100) 1 = 50 from rfl]
    norm_num
  · rw [show pyRound (qmul (qdiv ((3 : Nat) : Rat) ((4 : Nat) : Rat)) 100) 1 = 75 from rfl]
    norm_num
  · rw [show pyRound (qmul (qdiv ((4 : Nat) : Rat) ((4 : Nat) : Rat)) 100) 1 = 100 from rfl]
    norm_num

/-- C8: every successful run reports exactly the four named checks in their
fixed order, FAILs overall iff at least one check failed, and scores
100 × (passed checks) / 4, determined by the pass tally alone. -/
theorem report_score_characterization (fs : FS) (ip mp : List String)
    (th : QAThresholds) (report : QAReport)
    (h : run_qa_crosscheck fs ip mp th = Except.ok report) :
    report.checks.map Prod.fst = ["item_count_consistency", "bidirectional_references",
      "timestamp_consistency", "field_completeness_alignment"] ∧
    (report.status = "FAIL" ↔ ∃ c ∈ report.checks, c.2.status = "FAIL") ∧
    (report.status = "FAIL" ∨ report.status = "PASS") ∧
    report.data_quality_score =
      100 * ((report.checks.countP (fun c => c.2.status == "PASS")) : Rat) / 4 := by
  obtain ⟨c1, c2, c3, c4, hchecks, hstatus, hscore, _, _⟩ :=
    run_qa_inversion fs ip mp th report h
  refine ⟨by rw [hchecks]; rfl, ?_, ?_, ?_⟩
  · rw [hstatus]
    by_cases hA : report.checks.any (fun c => c.2.status == "FAIL")
    · rw [if_pos hA]
      simp only [List.any_eq_true, beq_iff_eq] at hA
      simpa using hA
    · rw [if_neg hA]
      simp only [List.any_eq_true, beq_iff_eq] at hA
      constructor
      · intro hc
        exact absurd hc (by simp)
      · intro hc
        exact absurd hc (by simpa using hA)
  · rw [hstatus]
    by_cases hA : report.checks.any (fun c => c.2.status == "FAIL")
    · rw [if_pos hA]
      exact Or.inl rfl
    · rw [if_neg hA]
      exact Or.inr rfl
  · rw [hscore, hchecks]
    have hred : calculate_data_quality_score
        [("item_count_consistency", c1), ("bidirectional_references", c2),
         ("timestamp_consistency", c3), ("field_completeness_alignment", c4)] =
      pyRound (qmul (qdiv ((List.countP (fun c => c.2.status == "PASS")
          [("item_count_consistency", c1), ("bidirectional_references", c2),
           ("timestamp_consistency", c3), ("field_completeness_alignment", c4)] : Nat) : Rat)
        ((4 : Nat) : Rat)) 100) 1 := rfl
    rw [hred, score_formula _ (by
      have := List.countP_le_length (l := [("item_count_consistency", c1),
        ("bidirectional_references", c2), ("timestamp_consistency", c3),
        ("field_completeness_alignment", c4)]) (p := fun c => c.2.status == "PASS")
      simpa using this)]

/-- Witness for C8 at a concrete all-passing run. -/
theorem report_score_characterization_witness :
    (reportOf fixturePassFS fixtureItemsPath fixtureMetaPath
        defaultThresholds).checks.map Prod.fst = ["item_count_consistency",
      "bidirectional_references", "timestamp_consistency", "field_completeness_alignment"] ∧
    ((reportOf fixturePassFS fixtureItemsPath fixtureMetaPath
        defaultThresholds).status = "FAIL" ↔
      ∃ c ∈ (reportOf fixturePassFS fixtureItemsPath fixtureMetaPath
        defaultThresholds).checks, c.2.status = "FAIL") ∧
    ((reportOf fixturePassFS fixtureItemsPath fixtureMetaPath
        defaultThresholds).status = "FAIL" ∨
      (reportOf fixturePassFS fixtureItemsPath fixtureMetaPath
        defaultThresholds).status = "PASS") ∧
    (reportOf fixturePassFS fixtureItemsPath fixtureMetaPath
        defaultThresholds).data_quality_score =
      100 * (((reportOf fixturePassFS fixtureItemsPath fixtureMetaPath
        defaultThresholds).checks.countP (fun c => c.2.status == "PASS")) : Rat) / 4 :=
  report_score_characterization fixturePassFS fixtureItemsPath fixtureMetaPath
    defaultThresholds
    (reportOf fixturePassFS fixtureItemsPath fixtureMetaPath defaultThresholds) rfl

/-- C9: the process exits 2 when loading either input fails (missing file or
malformed JSON) — a distinct fatal path reached before any check runs and
producing no QAReport — and otherwise exits 0 exactly on a PASS report and 1
on a FAIL report. -/
theorem exit_codes (fs : FS) (ip mp : List String) (th : QAThresholds) :
    ((fs ip = none ∨ fs ip = some none) →
      run_qa_crosscheck fs ip mp th = Except.error (Fatal.exited 2) ∧
      pymain fs ip mp th = MainResult.exitCode 2) ∧
    (∀ d, fs ip = some (some d) → (fs mp = none ∨ fs mp = some none) →
      run_qa_crosscheck fs ip mp th = Except.error (Fatal.exited 2) ∧
      pymain fs ip mp th = MainResult.exitCode 2) ∧
    (∀ report, run_qa_crosscheck fs ip mp th = Except.ok report →
      pymain fs ip mp th = MainResult.exitCode (if report.status = "PASS" then 0 else 1)) := by
  refine ⟨?_, ?_, ?_⟩
  · intro hbad
    have hrun : run_qa_crosscheck fs ip mp th = Except.error (Fatal.exited 2) := by
      rcases hbad with hb | hb <;>
        simp only [run_qa_crosscheck, load_json_file, hb, bind_err]
    exact ⟨hrun, by simp only [pymain, hrun]⟩
  · intro d hok hbad
    have hrun : run_qa_crosscheck fs ip mp th = Except.error (Fatal.exited 2) := by
      rcases hbad with hb | hb <;>
        simp only [run_qa_crosscheck, load_json_file, hok, hb, bind_ok, bind_err]
    exact ⟨hrun, by simp only [pymain, hrun]⟩
  · intro report hrun
    simp only [pymain, hrun]

/-- Witness for C9: a missing items file exits 2; an items path resolving but
metadata missing exits 2; a fully consistent run exits with the PASS code. -/
theorem exit_codes_witness :
    (run_qa_crosscheck (fun _ => none) fixtureItemsPath fixtureMetaPath defaultThresholds =
      Except.error (Fatal.exited 2) ∧
     pymain (fun _ => none) fixtureItemsPath fixtureMetaPath defaultThresholds =
      MainResult.exitCode 2) ∧
    (run_qa_crosscheck (mkFS fixtureItemsPath [""] fixtureItemsDoc J.null)
        fixtureItemsPath fixtureMetaPath defaultThresholds =
      Except.error (Fatal.exited 2) ∧
     pymain (mkFS fixtureItemsPath [""] fixtureItemsDoc J.null)
        fixtureItemsPath fixtureMetaPath defaultThresholds =
      MainResult.exitCode 2) ∧
    pymain fixturePassFS fixtureItemsPath fixtureMetaPath defaultThresholds =
      MainResult.exitCode
        (if (reportOf fixturePassFS fixtureItemsPath fixtureMetaPath
          defaultThresholds).status = "PASS" then 0 else 1) :=
  ⟨(exit_codes (fun _ => none) fixtureItemsPath fixtureMetaPath defaultThresholds).1
      (Or.inl rfl),
   (exit_codes (mkFS fixtureItemsPath [""] fixtureItemsDoc J.null)
      fixtureItemsPath fixtureMetaPath defaultThresholds).2.1 fixtureItemsDoc rfl
      (Or.inl rfl),
   (exit_codes fixturePassFS fixtureItemsPath fixtureMetaPath defaultThresholds).2.2
      (reportOf fixturePassFS fixtureItemsPath fixtureMetaPath defaultThresholds) rfl⟩

/-- The timestamp loop on items of the simple timestamp shape: it appends one
entry per out-of-tolerance timestamp, in enumeration order, and folds the
maximum deviation. -/
theorem tsScan_spec (s e : Rat) (tol : Int) (tls : List Rat) :
    ∀ (i : Nat) (acc : List J) (m : Rat),
      tsScan s e tol i (tls.map mkTsItem) acc m =
      Except.ok (acc ++ (((List.enumFrom i tls).filter
          (fun p => decide (deviationOf s e p.2 > ((tol : Int) : Rat)))).map
            (specInvalidEntry s e)),
        tls.foldl (fun a t => qmax a (deviationOf s e t)) m) := by
  induction tls with
  | nil =>
    intro i acc m
    simp [tsScan, List.enumFrom]
  | cons t rest ih =>
    intro i acc m
    show tsScan s e tol i (mkTsItem t :: rest.map mkTsItem) acc m = _
    rw [show tsScan s e tol i (mkTsItem t :: rest.map mkTsItem) acc m =
        tsScan s e tol (i + 1) (rest.map mkTsItem)
          (if deviationOf s e t > ((tol : Int) : Rat) then
            acc ++ [specInvalidEntry s e (i, t)] else acc)
          (qmax m (deviationOf s e t)) from rfl]
    rw [ih]
    by_cases hd : deviationOf s e t > ((tol : Int) : Rat)
    · rw [if_pos hd]
      simp only [List.enumFrom, List.filter, List.foldl]
      rw [show (decide (deviationOf s e t > ((tol : Int) : Rat))) = true by simp [hd]]
      simp [List.append_assoc]
    · rw [if_neg hd]
      simp only [List.enumFrom, List.filter, List.foldl]
      rw [show (decide (deviationOf s e t > ((tol : Int) : Rat))) = false by simp [hd]]

/-- Reduction of the timestamp check on well-formed documents up to the item
loop, by computation. -/
theorem check_ts_step (mf ifile : String) (n : Int) (ts te f1 f2 f3 f4 : Rat)
    (items : List J) (th : QAThresholds) :
    check_timestamp_consistency (mkItemsDoc mf items)
      (mkMetaDoc n ifile ts te f1 f2 f3 f4) th =
    (tsScan ts te th.timestamp_deviation_seconds 0 items [] 0) >>= (fun pair =>
      if pair.1.isEmpty then
        Except.ok ⟨"timestamp_consistency", "PASS",
          [("max_deviation_seconds", J.flt (pyRound pair.2 2)),
           ("tolerance_seconds", J.int th.timestamp_deviation_seconds)]⟩
      else
        Except.ok ⟨"timestamp_consistency", "FAIL",
          [("invalid_items", J.arr (pair.1.take 10)),
           ("total_invalid", J.int (pair.1.length : Int)),
           ("max_deviation_seconds", J.flt (pyRound pair.2 2)),
           ("tolerance_seconds", J.int th.timestamp_deviation_seconds)]⟩) := rfl

theorem foldl_qmax_max (f : Rat → Rat) (l : List Rat) :
    ∀ m, l.foldl (fun a t => qmax a (f t)) m = l.foldl (fun a t => max a (f t)) m := by
  induction l with
  | nil => intro m; rfl
  | cons t rest ih =>
    intro m
    show List.foldl _ (qmax m (f t)) rest = List.foldl _ (max m (f t)) rest
    rw [qmax_eq, ih]

theorem enumFrom_filter_empty (p : Rat → Prop) [DecidablePred p] (tls : List Rat) :
    ∀ i, (((List.enumFrom i tls).filter (fun q => decide (p q.2))) = [] ↔
      ∀ t ∈ tls, ¬ p t) := by
  induction tls with
  | nil => intro i; simp [List.enumFrom]
  | cons t rest ih =>
    intro i
    by_cases hp : p t
    · simp [List.enumFrom, List.filter, hp]
    · simp only [List.enumFrom, List.filter]
      rw [show (decide (p (i, t).2)) = false by simp [hp]]
      rw [ih (i + 1)]
      simp [hp]

/-- C6: per item the deviation is 0 inside the inclusive session window — in
particular at either boundary — and otherwise is the distance in seconds to
the nearer boundary; the check FAILs iff some item's deviation exceeds the
tolerance, the reported invalid items are the first at most 10 failing items
in sequence order, and both payloads report the maximum deviation and the
tolerance. -/
theorem timestamp_window_characterization (mf ifile : String) (n : Int)
    (s e f1 f2 f3 f4 : Rat) (tls : List Rat) (th : QAThresholds) :
    ∃ r : CheckResult,
      check_timestamp_consistency (mkItemsDoc mf (tls.map mkTsItem))
        (mkMetaDoc n ifile s e f1 f2 f3 f4) th = Except.ok r ∧
      r.check_name = "timestamp_consistency" ∧
      (s ≤ e → ∀ t, s ≤ t → t ≤ e → deviationOf s e t = 0) ∧
      (s ≤ e → ∀ t, t < s ∨ e < t → deviationOf s e t = min |t - s| |t - e|) ∧
      (r.status = "FAIL" ↔ ∃ t ∈ tls,
        deviationOf s e t > ((th.timestamp_deviation_seconds : Int) : Rat)) ∧
      (r.status = "FAIL" ∨ r.status = "PASS") ∧
      r.details.lookup "max_deviation_seconds" =
        some (J.flt (pyRound (tls.foldl (fun a t => max a (deviationOf s e t)) 0) 2)) ∧
      r.details.lookup "tolerance_seconds" = some (J.int th.timestamp_deviation_seconds) ∧
      (r.status = "FAIL" →
        r.details.lookup "invalid_items" = some (J.arr ((((List.enumFrom 0 tls).filter
          (fun p => decide (deviationOf s e p.2 >
            ((th.timestamp_deviation_seconds : Int) : Rat)))).map
              (specInvalidEntry s e)).take 10))) := by
  have hdev0 : s ≤ e → ∀ t, s ≤ t → t ≤ e → deviationOf s e t = 0 := by
    intro _ t hst hte
    rw [deviationOf, if_neg (not_lt.mpr hst), if_neg (not_lt.mpr hte)]
  have hdevmin : s ≤ e → ∀ t, t < s ∨ e < t → deviationOf s e t = min |t - s| |t - e| := by
    intro hse t hout
    rcases hout with hlt | hgt
    · rw [deviationOf, if_pos hlt, qsub_eq]
      rw [abs_of_neg (by linarith), abs_of_nonpos (by linarith)]
      rw [min_eq_left (by linarith)]
      ring
    · rw [deviationOf, if_neg (by linarith), if_pos hgt, qsub_eq]
      rw [abs_of_pos (by linarith), abs_of_nonneg (by linarith)]
      rw [min_eq_right (by linarith)]
  rw [check_ts_step, tsScan_spec s e th.timestamp_deviation_seconds tls 0 [] 0, bind_ok]
  simp only [List.nil_append]
  by_cases hE : (((List.enumFrom 0 tls).filter
      (fun p => decide (deviationOf s e p.2 >
        ((th.timestamp_deviation_seconds : Int) : Rat)))).map
          (specInvalidEntry s e)).isEmpty
  · rw [if_pos hE]
    rw [isEmpty_map, List.isEmpty_iff] at hE
    rw [enumFrom_filter_empty
      (fun t => deviationOf s e t > ((th.timestamp_deviation_seconds : Int) : Rat)) tls 0] at hE
    refine ⟨_, rfl, rfl, hdev0, hdevmin, ?_, Or.inr rfl, ?_, rfl, ?_⟩
    · constructor
      · intro hc
        exact absurd hc (by simp)
      · intro hex
        obtain ⟨t, htmem, htdev⟩ := hex
        exact absurd htdev (hE t htmem)
    · rw [foldl_qmax_max (fun t => deviationOf s e t) tls 0]
      rfl
    · intro hc
      exact absurd hc (by simp)
  · rw [if_neg hE]
    refine ⟨_, rfl, rfl, hdev0, hdevmin, ?_, Or.inl rfl, ?_, rfl, fun _ => rfl⟩
    · rw [isEmpty_map] at hE
      constructor
      · intro _
        by_contra hnex
        push_neg at hnex
        have : ((List.enumFrom 0 tls).filter
            (fun p => decide (deviationOf s e p.2 >
              ((th.timestamp_deviation_seconds : Int) : Rat)))) = [] := by
          rw [enumFrom_filter_empty
            (fun t => deviationOf s e t > ((th.timestamp_deviation_seconds : Int) : Rat)) tls 0]
          intro t htmem
          exact not_lt.mpr (hnex t htmem)
        rw [this] at hE
        exact hE rfl
      · intro _
        rfl
    · rw [foldl_qmax_max (fun t => deviationOf s e t) tls 0]
      rfl

/-- The per-field counting loop on dict-shaped items is the count of items
whose field is non-empty. -/
theorem countNonEmpty_objs (field : String) (items : List (List (String × J))) :
    countNonEmpty field (items.map J.obj) =
      Except.ok (items.countP (fun kvs => !(isEmptyLike (kvs.lookup field)))) := by
  induction items with
  | nil => rfl
  | cons kvs rest ih =>
    rw [show countNonEmpty field ((kvs :: rest).map J.obj) =
      (countNonEmpty field (rest.map J.obj)) >>= (fun m =>
        pure (if isEmptyLike (kvs.lookup field) then m else m + 1)) from rfl]
    rw [ih, bind_ok]
    by_cases he : isEmptyLike (kvs.lookup field)
    · simp only [List.countP_cons, he, if_pos]
      rfl
    · simp only [Bool.not_eq_true] at he
      simp only [List.countP_cons, he]
      rfl

/-- Reduction of the field-completeness check on well-formed documents up to
the counting and comparison loops, by computation. -/
theorem check_fc_step (mf ifile : String) (n : Int) (ts te f1 f2 f3 f4 : Rat)
    (items : List J) (th : QAThresholds) :
    check_field_completeness_alignment (mkItemsDoc mf items)
      (mkMetaDoc n ifile ts te f1 f2 f3 f4) th =
    (if items.length = 0 then
      Except.ok ⟨"field_completeness_alignment", "FAIL",
        [("error", J.str "No items to validate")]⟩
    else
      (fcFields.mapM (fun field => (countNonEmpty field items) >>= (fun c =>
        pure (field, qmul (qdiv ((c : Nat) : Rat) ((items.length : Nat) : Rat)) 100)))) >>=
      fun actual_completeness =>
      (fcScan actual_completeness
        (qmul th.field_completeness_variance 100)
        [("title", J.flt f1), ("price", J.flt f2), ("image_urls", J.flt f3),
         ("description", J.flt f4)] [] 0) >>= fun pair =>
      if pair.1.isEmpty then
        Except.ok ⟨"field_completeness_alignment", "PASS",
          [("max_difference", J.flt (pyRound pair.2 2)),
           ("tolerance", J.flt (qmul th.field_completeness_variance 100))]⟩
      else
        Except.ok ⟨"field_completeness_alignment", "FAIL",
          [("mismatches", J.arr pair.1),
           ("max_difference", J.flt (pyRound pair.2 2)),
           ("tolerance", J.flt (qmul th.field_completeness_variance 100))]⟩) := rfl

theorem pure_ok {ε α : Type} (a : α) : (pure a : Except ε α) = Except.ok a := rfl

/-- Evaluation of the four-field completeness mapM when every item is a
dict. -/
theorem mapM_completeness (items : List (List (String × J))) (L : Rat) :
    fcFields.mapM (fun field => (countNonEmpty field (items.map J.obj)) >>= (fun c =>
      pure (field, qmul (qdiv ((c : Nat) : Rat) L) 100))) =
    Except.ok (fcFields.map (fun field =>
      (field, qmul (qdiv ((items.countP
        (fun kvs => !(isEmptyLike (kvs.lookup field))) : Nat) : Rat) L) 100))) := by
  simp only [fcFields, List.mapM_cons, List.mapM_nil, countNonEmpty_objs, bind_ok, pure_ok]
  rfl

/-- The completeness comparison loop on float-valued reported entries, with
the actual-percentage map abstracted as a function A agreeing with the
lookups: one mismatch entry per out-of-tolerance field, in reported order,
folding the maximum difference. -/
theorem fcScan_specA (actual : List (String × Rat)) (A : String → Rat) (tolPts : Rat) :
    ∀ (reps : List (String × Rat)),
      (∀ p ∈ reps, ((actual.lookup p.1).getD 0) = A p.1) →
    ∀ (ms : List J) (md : Rat),
      fcScan actual tolPts (reps.map (fun p => (p.1, J.flt p.2))) ms md =
      Except.ok (ms ++ (reps.filter (fun p =>
          decide (qabs (qsub p.2 (A p.1)) > tolPts))).map
            (fun p => J.obj [("field", J.str p.1),
              ("reported", J.flt (pyRound p.2 2)),
              ("actual", J.flt (pyRound (A p.1) 2)),
              ("difference", J.flt (pyRound (qabs (qsub p.2 (A p.1))) 2))]),
        reps.foldl (fun a p => qmax a (qabs (qsub p.2 (A p.1)))) md) := by
  intro reps
  induction reps with
  | nil =>
    intro _ ms md
    simp [fcScan]
  | cons p rest ih =>
    intro hA ms md
    have hAp : ((actual.lookup p.1).getD 0) = A p.1 := hA p (List.mem_cons_self p rest)
    have hArest : ∀ q ∈ rest, ((actual.lookup q.1).getD 0) = A q.1 :=
      fun q hq => hA q (List.mem_cons_of_mem p hq)
    rw [show fcScan actual tolPts ((p :: rest).map (fun q => (q.1, J.flt q.2))) ms md =
      fcScan actual tolPts (rest.map (fun q => (q.1, J.flt q.2)))
        (if qabs (qsub p.2 ((actual.lookup p.1).getD 0)) > tolPts then
          ms ++ [J.obj [("field", J.str p.1),
            ("reported", J.flt (pyRound p.2 2)),
            ("actual", J.flt (pyRound ((actual.lookup p.1).getD 0) 2)),
            ("difference", J.flt (pyRound (qabs (qsub p.2 ((actual.lookup p.1).getD 0))) 2))]]
         else ms)
        (qmax md (qabs (qsub p.2 ((actual.lookup p.1).getD 0)))) from rfl]
    rw [hAp, ih hArest]
    by_cases hd : qabs (qsub p.2 (A p.1)) > tolPts
    · rw [if_pos hd]
      simp only [List.filter, List.foldl]
      rw [show (decide (qabs (qsub p.2 (A p.1)) > tolPts)) = true by simp [hd]]
      simp [List.append_assoc]
    · rw [if_neg hd]
      simp only [List.filter, List.foldl]
      rw [show (decide (qabs (qsub p.2 (A p.1)) > tolPts)) = false by simp [hd]]

/-- C3: on a non-empty items sequence, the field-completeness check
recomputes each of the four fields' actual percentage as 100 × non-empty /
total, records one mismatch entry per field whose reported percentage is
farther than the tolerance in points from the actual, and FAILs iff some
field mismatches; an empty items sequence FAILs immediately with the
"No items to validate" detail, whatever the thresholds and reported
percentages. -/
theorem field_completeness_characterization (mf ifile : String) (nrep : Int)
    (ts te rt rp ri rd : Rat) (items : List (List (String × J))) (th : QAThresholds) :
    (items ≠ [] →
      ∃ r : CheckResult,
        check_field_completeness_alignment (mkItemsDoc mf (items.map J.obj))
          (mkMetaDoc nrep ifile ts te rt rp ri rd) th = Except.ok r ∧
        r.check_name = "field_completeness_alignment" ∧
        (r.status = "FAIL" ↔
          specFCMismatch items rt "title" th ∨ specFCMismatch items rp "price" th ∨
          specFCMismatch items ri "image_urls" th ∨ specFCMismatch items rd "description" th) ∧
        (r.status = "FAIL" ∨ r.status = "PASS") ∧
        (r.status = "FAIL" →
          r.details.lookup "mismatches" = some (J.arr
            (([("title", rt), ("price", rp), ("image_urls", ri), ("description", rd)].filter
              (fun p => decide (|p.2 - specActualPct items p.1| >
                th.field_completeness_variance * 100))).map
                  (fun p => J.obj [("field", J.str p.1),
                    ("reported", J.flt (pyRound p.2 2)),
                    ("actual", J.flt (pyRound (specActualPct items p.1) 2)),
                    ("difference", J.flt (pyRound |p.2 - specActualPct items p.1| 2))]))))) ∧
    (check_field_completeness_alignment (mkItemsDoc mf [])
        (mkMetaDoc nrep ifile ts te rt rp ri rd) th =
      Except.ok ⟨"field_completeness_alignment", "FAIL",
        [("error", J.str "No items to validate")]⟩) := by
  constructor
  · intro hne
    have hlen0 : ¬ (items.map J.obj).length = 0 := by
      simpa [List.length_eq_zero] using hne
    rw [check_fc_step, if_neg hlen0,
      mapM_completeness items (((items.map J.obj).length : Nat) : Rat), bind_ok]
    rw [show ([("title", J.flt rt), ("price", J.flt rp), ("image_urls", J.flt ri),
        ("description", J.flt rd)] : List (String × J)) =
      ([("title", rt), ("price", rp), ("image_urls", ri), ("description", rd)].map
        (fun p => (p.1, J.flt p.2))) from rfl]
    have a1 : (((fcFields.map (fun field =>
        (field, qmul (qdiv ((items.countP
          (fun kvs => !(isEmptyLike (kvs.lookup field))) : Nat) : Rat)
          (((items.map J.obj).length : Nat) : Rat)) 100))).lookup "title").getD 0) =
        specActualPct items "title" := by
      rw [show (((fcFields.map (fun field =>
          (field, qmul (qdiv ((items.countP
            (fun kvs => !(isEmptyLike (kvs.lookup field))) : Nat) : Rat)
            (((items.map J.obj).length : Nat) : Rat)) 100))).lookup "title").getD 0) =
          qmul (qdiv ((items.countP
            (fun kvs => !(isEmptyLike (kvs.lookup "title"))) : Nat) : Rat)
            (((items.map J.obj).length : Nat) : Rat)) 100 from rfl]
      rw [qmul_eq, qdiv_eq]
      simp only [specActualPct, List.length_map]
    have a2 : (((fcFields.map (fun field =>
        (field, qmul (qdiv ((items.countP
          (fun kvs => !(isEmptyLike (kvs.lookup field))) : Nat) : Rat)
          (((items.map J.obj).length : Nat) : Rat)) 100))).lookup "price").getD 0) =
        specActualPct items "price" := by
      rw [show (((fcFields.map (fun field =>
          (field, qmul (qdiv ((items.countP
            (fun kvs => !(isEmptyLike (kvs.lookup field))) : Nat) : Rat)
            (((items.map J.obj).length : Nat) : Rat)) 100))).lookup "price").getD 0) =
          qmul (qdiv ((items.countP
            (fun kvs => !(isEmptyLike (kvs.lookup "price"))) : Nat) : Rat)
            (((items.map J.obj).length : Nat) : Rat)) 100 from rfl]
      rw [qmul_eq, qdiv_eq]
      simp only [specActualPct, List.length_map]
    have a3 : (((fcFields.map (fun field =>
        (field, qmul (qdiv ((items.countP
          (fun kvs => !(isEmptyLike (kvs.lookup field))) : Nat) : Rat)
          (((items.map J.obj).length : Nat) : Rat)) 100))).lookup "image_urls").getD 0) =
        specActualPct items "image_urls" := by
      rw [show (((fcFields.map (fun field =>
          (field, qmul (qdiv ((items.countP
            (fun kvs => !(isEmptyLike (kvs.lookup field))) : Nat) : Rat)
            (((items.map J.obj).length : Nat) : Rat)) 100))).lookup "image_urls").getD 0) =
          qmul (qdiv ((items.countP
            (fun kvs => !(isEmptyLike (kvs.lookup "image_urls"))) : Nat) : Rat)
            (((items.map J.obj).length : Nat) : Rat)) 100 from rfl]
      rw [qmul_eq, qdiv_eq]
      simp only [specActualPct, List.length_map]
    have a4 : (((fcFields.map (fun field =>
        (field, qmul (qdiv ((items.countP
          (fun kvs => !(isEmptyLike (kvs.lookup field))) : Nat) : Rat)
          (((items.map J.obj).length : Nat) : Rat)) 100))).lookup "description").getD 0) =
        specActualPct items "description" := by
      rw [show (((fcFields.map (fun field =>
          (field, qmul (qdiv ((items.countP
            (fun kvs => !(isEmptyLike (kvs.lookup field))) : Nat) : Rat)
            (((items.map J.obj).length : Nat) : Rat)) 100))).lookup "description").getD 0) =
          qmul (qdiv ((items.countP
            (fun kvs => !(isEmptyLike (kvs.lookup "description"))) : Nat) : Rat)
            (((items.map J.obj).length : Nat) : Rat)) 100 from rfl]
      rw [qmul_eq, qdiv_eq]
      simp only [specActualPct, List.length_map]
    have hA : ∀ p ∈ ([("title", rt), ("price", rp), ("image_urls", ri),
        ("description", rd)] : List (String × Rat)),
        (((fcFields.map (fun field =>
          (field, qmul (qdiv ((items.countP
            (fun kvs => !(isEmptyLike (kvs.lookup field))) : Nat) : Rat)
            (((items.map J.obj).length : Nat) : Rat)) 100))).lookup p.1).getD 0) =
        specActualPct items p.1 := by
      intro p hp
      simp only [List.mem_cons, List.not_mem_nil, or_false] at hp
      rcases hp with hp | hp | hp | hp
      · subst hp
        exact a1
      · subst hp
        exact a2
      · subst hp
        exact a3
      · subst hp
        exact a4
    rw [fcScan_specA _ (fun f => specActualPct items f)
      (qmul th.field_completeness_variance 100) _ hA [] 0, bind_ok]
    simp only [List.nil_append]
    have hpred : ∀ p ∈ ([("title", rt), ("price", rp), ("image_urls", ri),
        ("description", rd)] : List (String × Rat)),
        (decide (qabs (qsub p.2 (specActualPct items p.1)) >
          qmul th.field_completeness_variance 100)) =
        (decide (|p.2 - specActualPct items p.1| >
          th.field_completeness_variance * 100)) := by
      intro p _
      apply decide_eq_decide.mpr
      rw [qabs_eq, qsub_eq, qmul_eq]
    rw [List.filter_congr hpred]
    have hmapc : ∀ p ∈ (([("title", rt), ("price", rp), ("image_urls", ri),
        ("description", rd)] : List (String × Rat)).filter
          (fun p => decide (|p.2 - specActualPct items p.1| >
            th.field_completeness_variance * 100))),
        (J.obj [("field", J.str p.1),
          ("reported", J.flt (pyRound p.2 2)),
          ("actual", J.flt (pyRound (specActualPct items p.1) 2)),
          ("difference", J.flt (pyRound (qabs (qsub p.2 (specActualPct items p.1))) 2))]) =
        (J.obj [("field", J.str p.1),
          ("reported", J.flt (pyRound p.2 2)),
          ("actual", J.flt (pyRound (specActualPct items p.1) 2)),
          ("difference", J.flt (pyRound |p.2 - specActualPct items p.1| 2))]) := by
      intro p _
      rw [qabs_eq, qsub_eq]
    rw [List.map_congr_left hmapc]
    by_cases hE : (([("title", rt), ("price", rp), ("image_urls", ri),
        ("description", rd)] : List (String × Rat)).filter
          (fun p => decide (|p.2 - specActualPct items p.1| >
            th.field_completeness_variance * 100))) = []
    · rw [hE]
      rw [if_pos (show ((([] : List (String × Rat))).map (fun p =>
        J.obj [("field", J.str p.1),
          ("reported", J.flt (pyRound p.2 2)),
          ("actual", J.flt (pyRound (specActualPct items p.1) 2)),
          ("difference", J.flt (pyRound |p.2 - specActualPct items p.1| 2))])).isEmpty = true
        from rfl)]
      rw [List.filter_eq_nil_iff] at hE
      refine ⟨_, rfl, rfl, ?_, Or.inr rfl, ?_⟩
      · constructor
        · intro hc
          exact absurd hc (by simp)
        · intro hdisj
          exfalso
          rcases hdisj with hd | hd | hd | hd
          · have hn := hE ("title", rt) (by simp)
            simp only [decide_eq_true_eq] at hn
            exact hn hd
          · have hn := hE ("price", rp) (by simp)
            simp only [decide_eq_true_eq] at hn
            exact hn hd
          · have hn := hE ("image_urls", ri) (by simp)
            simp only [decide_eq_true_eq] at hn
            exact hn hd
          · have hn := hE ("description", rd) (by simp)
            simp only [decide_eq_true_eq] at hn
            exact hn hd
      · intro hc
        exact absurd hc (by simp)
    · rw [if_neg (by
        rw [isEmpty_map, List.isEmpty_iff]
        exact hE)]
      refine ⟨_, rfl, rfl, ?_, Or.inl rfl, fun _ => rfl⟩
      constructor
      · intro _
        by_contra hno
        push_neg at hno
        apply hE
        rw [List.filter_eq_nil_iff]
        intro p hp
        simp only [List.mem_cons, List.not_mem_nil, or_false] at hp
        rcases hp with hp | hp | hp | hp
        · subst hp
          simp only [decide_eq_true_eq]
          exact hno.1
        · subst hp
          simp only [decide_eq_true_eq]
          exact hno.2.1
        · subst hp
          simp only [decide_eq_true_eq]
          exact hno.2.2.1
        · subst hp
          simp only [decide_eq_true_eq]
          exact hno.2.2.2
      · intro _
        rfl
  · rfl

/-- Witness for C3 at a one-item scrape with an empty price: the price field's
reported 95 percent differs from the actual 0 percent by more than the
default 5-point tolerance, so the check FAILs with a price mismatch. -/
theorem field_completeness_characterization_witness :
    ∃ r : CheckResult,
      check_field_completeness_alignment
        (mkItemsDoc "metadata.json" ([[("title", J.str "x"), ("scraped_at", J.flt 1)]].map J.obj))
        (mkMetaDoc 1 "items.json" 0 10 100 95 0 0) defaultThresholds = Except.ok r ∧
      r.check_name = "field_completeness_alignment" ∧
      (r.status = "FAIL" ↔
        specFCMismatch [[("title", J.str "x"), ("scraped_at", J.flt 1)]] 100 "title"
          defaultThresholds ∨
        specFCMismatch [[("title", J.str "x"), ("scraped_at", J.flt 1)]] 95 "price"
          defaultThresholds ∨
        specFCMismatch [[("title", J.str "x"), ("scraped_at", J.flt 1)]] 0 "image_urls"
          defaultThresholds ∨
        specFCMismatch [[("title", J.str "x"), ("scraped_at", J.flt 1)]] 0 "description"
          defaultThresholds) ∧
      (r.status = "FAIL" ∨ r.status = "PASS") ∧
      (r.status = "FAIL" →
        r.details.lookup "mismatches" = some (J.arr
          (([("title", (100 : Rat)), ("price", 95), ("image_urls", 0), ("description", 0)].filter
            (fun p => decide (|p.2 - specActualPct
              [[("title", J.str "x"), ("scraped_at", J.flt 1)]] p.1| >
              defaultThresholds.field_completeness_variance * 100))).map
                (fun p => J.obj [("field", J.str p.1),
                  ("reported", J.flt (pyRound p.2 2)),
                  ("actual", J.flt (pyRound (specActualPct
                    [[("title", J.str "x"), ("scraped_at", J.flt 1)]] p.1) 2)),
                  ("difference", J.flt (pyRound |p.2 - specActualPct
                    [[("title", J.str "x"), ("scraped_at", J.flt 1)]] p.1| 2))])))) :=
  (field_completeness_characterization "metadata.json" "items.json" 1 0 10 100 95 0 0
    [[("title", J.str "x"), ("scraped_at", J.flt 1)]] defaultThresholds).1 (by simp)

theorem jSub_int (r a : Int) : jSub (J.int r) (J.int a) = Except.ok (J.int (r - a)) := by
  rw [show jSub (J.int r) (J.int a) =
    Except.ok (J.int ((qsub ((r : Int) : Rat) ((a : Int) : Rat)).num)) from rfl]
  rw [qsub_eq, ← Int.cast_sub, Rat.num_intCast]

/-- The selector loop over mismatch entries whose first key is the field name
produces one selector_accuracy cause per entry, in order. -/
theorem selectorCauses_spec (ms : List (String × List (String × J))) :
    selectorCauses (ms.map (fun q => J.obj (("field", J.str q.1) :: q.2))) =
      Except.ok (ms.map (fun q => specSelectorCause q.1)) := by
  induction ms with
  | nil => rfl
  | cons q rest ih =>
    rw [show selectorCauses ((q :: rest).map (fun q2 => J.obj (("field", J.str q2.1) :: q2.2))) =
      (selectorCauses (rest.map (fun q2 => J.obj (("field", J.str q2.1) :: q2.2)))) >>=
        (fun more => pure (RootCause.mk "selector_accuracy" (some (J.str q.1))
          ("Selector for '" ++ pyStr (J.str q.1) ++ "' not matching all variants")
          ("Add fallback selector for " ++ pyStr (J.str q.1) ++ " field") :: more)) from rfl]
    rw [ih, bind_ok]
    rfl

/-- C4: root-cause analysis is a deterministic function of the failed checks'
payloads — a pagination_end_condition cause describing the missing items when
the item-count check failed with actual < reported, a duplicate_items cause
when actual > reported, then one selector_accuracy cause per completeness
mismatch in the order the check emitted them — and on every run whose report
carries root causes, recommended_actions is exactly the causes'
recommendation strings in the same order. -/
theorem root_cause_determinism (checks : List (String × CheckResult))
    (cIC cFC : CheckResult) (r a : Int) (ms : List (String × List (String × J)))
    (fs : FS) (ip mp : List String) (th : QAThresholds) (report : QAReport)
    (rcs : List RootCause) :
    (checks.lookup "item_count_consistency" = some cIC →
     checks.lookup "field_completeness_alignment" = some cFC →
     (cIC.status = "FAIL" → cIC.details.lookup "reported" = some (J.int r) ∧
       cIC.details.lookup "actual" = some (J.int a)) →
     (cFC.status = "FAIL" → cFC.details.lookup "mismatches" =
       some (J.arr (ms.map (fun q => J.obj (("field", J.str q.1) :: q.2))))) →
     analyze_root_causes checks = Except.ok (
       (if cIC.status = "FAIL" then
          (if a < r then [specPaginationCause (r - a)]
           else if r < a then [specDuplicateCause (a - r)] else [])
        else []) ++
       (if cFC.status = "FAIL" then ms.map (fun q => specSelectorCause q.1) else []))) ∧
    (run_qa_crosscheck fs ip mp th = Except.ok report →
     report.root_cause_analysis = some rcs →
     report.status = "FAIL" ∧
     report.recommended_actions = some (rcs.map (fun c => c.recommendation))) := by
  constructor
  · intro hic hfc hicd hfcd
    have hICC : itemCountCauses checks =
        Except.ok (if cIC.status = "FAIL" then
          (if a < r then [specPaginationCause (r - a)]
           else if r < a then [specDuplicateCause (a - r)] else [])
         else []) := by
      simp only [itemCountCauses]
      rw [hic]
      dsimp only
      by_cases hS1 : cIC.status = "FAIL"
      · rw [if_pos hS1, if_pos hS1]
        obtain ⟨hr, ha⟩ := hicd hS1
        rw [show dget (J.obj cIC.details) "reported" =
          (match cIC.details.lookup "reported" with
           | some v => Except.ok v
           | none => Except.error (PyErr.keyError "reported")) from rfl]
        rw [show dget (J.obj cIC.details) "actual" =
          (match cIC.details.lookup "actual" with
           | some v => Except.ok v
           | none => Except.error (PyErr.keyError "actual")) from rfl]
        rw [hr, ha]
        simp only [bind_ok]
        rw [show toNum (J.int r) = Except.ok ((r : Int) : Rat) from rfl,
          show toNum (J.int a) = Except.ok ((a : Int) : Rat) from rfl]
        simp only [bind_ok]
        by_cases hlt : a < r
        · rw [if_pos (by exact_mod_cast hlt), if_pos hlt, jSub_int]
          simp only [bind_ok]
          rfl
        · rw [if_neg (by exact_mod_cast hlt), if_neg hlt]
          by_cases hgt : r < a
          · rw [if_pos (by exact_mod_cast hgt), if_pos hgt, jSub_int]
            simp only [bind_ok]
            rfl
          · rw [if_neg (by exact_mod_cast hgt), if_neg hgt]
            rfl
      · rw [if_neg hS1, if_neg hS1]
        rfl
    have hFCC : completenessCauses checks =
        Except.ok (if cFC.status = "FAIL" then ms.map (fun q => specSelectorCause q.1)
          else []) := by
      simp only [completenessCauses]
      rw [hfc]
      dsimp only
      by_cases hS2 : cFC.status = "FAIL"
      · rw [if_pos hS2, if_pos hS2, hfcd hS2]
        rw [show (Option.getD (some (J.arr (ms.map (fun q =>
          J.obj (("field", J.str q.1) :: q.2))))) (J.arr [])) =
          J.arr (ms.map (fun q => J.obj (("field", J.str q.1) :: q.2))) from rfl]
        rw [show asArr (J.arr (ms.map (fun q => J.obj (("field", J.str q.1) :: q.2)))) =
          Except.ok (ms.map (fun q => J.obj (("field", J.str q.1) :: q.2))) from rfl]
        simp only [bind_ok]
        exact selectorCauses_spec ms
      · rw [if_neg hS2, if_neg hS2]
        rfl
    calc analyze_root_causes checks
        = (itemCountCauses checks) >>= (fun ic =>
            (completenessCauses checks) >>= (fun cc => pure (ic ++ cc))) := rfl
      _ = Except.ok (
          (if cIC.status = "FAIL" then
            (if a < r then [specPaginationCause (r - a)]
             else if r < a then [specDuplicateCause (a - r)] else [])
           else []) ++
          (if cFC.status = "FAIL" then ms.map (fun q => specSelectorCause q.1) else [])) := by
        rw [hICC, bind_ok, hFCC, bind_ok]
        rfl
  · intro hrun hrca
    obtain ⟨c1, c2, c3, c4, hchecks, hstatus, hscore, hfail, hpass⟩ :=
      run_qa_inversion fs ip mp th report hrun
    by_cases hS : report.status = "FAIL"
    · obtain ⟨rcs', hrc, hrca', hra⟩ := hfail hS
      by_cases hEm : rcs'.isEmpty
      · rw [if_pos hEm] at hrca'
        rw [hrca'] at hrca
        exact absurd hrca (by simp)
      · rw [if_neg hEm] at hrca'
        rw [if_neg hEm] at hra
        rw [hrca'] at hrca
        have : rcs' = rcs := by
          injection hrca
        subst this
        exact ⟨hS, hra⟩
    · have hP : report.status = "PASS" := by
        rw [hstatus] at hS ⊢
        by_cases hA : report.checks.any (fun c => c.2.status == "FAIL")
        · rw [if_pos hA] at hS
          exact absurd rfl hS
        · rw [if_neg hA]
      obtain ⟨h1, _⟩ := hpass hP
      rw [h1] at hrca
      exact absurd hrca (by simp)

/-- Witness for C4: concrete failed checks (10 reported, 5 actual, one price
mismatch) yield the pagination cause followed by the price selector cause;
the concrete five-items-short run carries exactly the pagination
recommendation. -/
theorem root_cause_determinism_witness :
    analyze_root_causes
      [("item_count_consistency", CheckResult.mk "item_count_consistency" "FAIL"
          [("reported", J.int 10), ("actual", J.int 5)]),
       ("field_completeness_alignment", CheckResult.mk "field_completeness_alignment" "FAIL"
          [("mismatches", J.arr [J.obj [("field", J.str "price")]])])] =
      Except.ok [specPaginationCause 5, specSelectorCause "price"] ∧
    ((reportOf fixtureShortFS fixtureItemsPath fixtureMetaPath
        defaultThresholds).status = "FAIL" ∧
     (reportOf fixtureShortFS fixtureItemsPath fixtureMetaPath
        defaultThresholds).recommended_actions =
       some ["Review pagination end condition in scraper code"]) :=
  ⟨(root_cause_determinism
      [("item_count_consistency", CheckResult.mk "item_count_consistency" "FAIL"
          [("reported", J.int 10), ("actual", J.int 5)]),
       ("field_completeness_alignment", CheckResult.mk "field_completeness_alignment" "FAIL"
          [("mismatches", J.arr [J.obj [("field", J.str "price")]])])]
      (CheckResult.mk "item_count_consistency" "FAIL"
        [("reported", J.int 10), ("actual", J.int 5)])
      (CheckResult.mk "field_completeness_alignment" "FAIL"
        [("mismatches", J.arr [J.obj [("field", J.str "price")]])])
      10 5 [("price", [])] fixtureShortFS fixtureItemsPath fixtureMetaPath
      defaultThresholds
      (reportOf fixtureShortFS fixtureItemsPath fixtureMetaPath defaultThresholds)
      [specPaginationCause 5]).1
      rfl rfl (fun _ => ⟨rfl, rfl⟩) (fun _ => rfl),
   (root_cause_determinism
      [("item_count_consistency", CheckResult.mk "item_count_consistency" "FAIL"
          [("reported", J.int 10), ("actual", J.int 5)]),
       ("field_completeness_alignment", CheckResult.mk "field_completeness_alignment" "FAIL"
          [("mismatches", J.arr [J.obj [("field", J.str "price")]])])]
      (CheckResult.mk "item_count_consistency" "FAIL"
        [("reported", J.int 10), ("actual", J.int 5)])
      (CheckResult.mk "field_completeness_alignment" "FAIL"
        [("mismatches", J.arr [J.obj [("field", J.str "price")]])])
      10 5 [("price", [])] fixtureShortFS fixtureItemsPath fixtureMetaPath
      defaultThresholds
      (reportOf fixtureShortFS fixtureItemsPath fixtureMetaPath defaultThresholds)
      [specPaginationCause 5]).2
      rfl rfl⟩

end QACross
